import Mathlib

/-!
Shallow embedding of `src/server.py` (a Flask media server).

The embedding models the `/stream` handler (`stream_audio`) as a pure
function of an environment that fixes the behaviour of the external
collaborators (the Redis-backed cache, the `requests.head` probe, the
`yt_dlp` extractor, the cookie environment variable and the temporary
cookie file).  The handler's outcome is the HTTP response together with
the final cache contents, the ordered trace of external operations it
performed, and a snapshot of the cache contents at the moment extraction
begins.  The list endpooints (`like_song` and the `eval`-based
deserialization used by `recently-played`/`liked-songs`) are modelled
separately as pure list operations.
-/

set_option autoImplicit false

namespace FlaskServer

/-- A `{videoId, title}` record as appended by the list endpoints. -/
structure Song where
  videoId : String
  title : String
deriving DecidableEq

/-- External operations performed by the `/stream` handler, in order. -/
inductive Op where
  | cacheGet (key : String)
  | headProbe (url : String)
  | cacheSet (key value : String)
  | cacheDelete (key : String)
  | extract (url : String)
deriving DecidableEq

/-- HTTP-visible outcome of the handler: a 200 JSON body with `audioUrl`,
an explicit `jsonify(...), status` return, or an exception that escapes
the handler (Flask then produces a generic 500). -/
inductive Resp where
  | ok (audioUrl : String)
  | err (status : Nat) (message : String)
  | unhandled (message : String)
deriving DecidableEq

/-- The HTTP status code of a response; an unhandled exception surfaces
as Flask's generic 500. -/
def Resp.statusCode : Resp → Nat
  | .ok _ => 200
  | .err s _ => s
  | .unhandled _ => 500

/-- `listStarts pat l` : `pat` is an initial segment of `l`. -/
def listStarts : List Char → List Char → Bool
  | [], _ => true
  | _ :: _, [] => false
  | a :: as, b :: bs => a == b && listStarts as bs

/-- `listHasSub pat l` : `pat` occurs contiguously somewhere in `l`. -/
def listHasSub (pat : List Char) : List Char → Bool
  | [] => listStarts pat []
  | c :: rest => listStarts pat (c :: rest) || listHasSub pat rest

/-- Python's `pat in s` substring test on strings. -/
def strContains (s pat : String) : Bool :=
  listHasSub pat.data s.data

/-- Association-list lookup, first binding wins (models the key-value
view of the Redis store). -/
def getKey : List (String × String) → String → Option String
  | [], _ => none
  | p :: rest, k => if p.1 = k then some p.2 else getKey rest k

/-- Overwriting store: the new binding shadows any older one. -/
def setKey (m : List (String × String)) (k v : String) : List (String × String) :=
  (k, v) :: m

/-- The cache key `f"audio_url:{video_id}"` (line 96): the id is
interpolated directly, with no sanitisation. -/
def audioKey (vid : String) : String := "audio_url:" ++ vid

/-- The watch URL `f"https://www.youtube.com/watch?v={video_id}"`
(line 121): again direct interpolation. -/
def watchUrl (vid : String) : String := "https://www.youtube.com/watch?v=" ++ vid

/-- The bot-detection marker tested at line 147 of the source
(`'confirm you\'re not a bot' in str(e)`); the apostrophe is built with
`Char.ofNat 39`. -/
def botMarker : String :=
  "confirm you" ++ String.singleton (Char.ofNat 39) ++ "re not a bot"

/-- Body of the 403 returned when the bot marker is found (lines 148-150). -/
def botResponseMsg : String :=
  "YouTube bot detection triggered. Please check cookie configuration."

/-- Message wrapping any other exception of the inner `try` (line 151). -/
def extractErrMsg (m : String) : String :=
  "Failed to extract video info: " ++ m

/-- Environment fixing the collaborators of one `/stream` request.
`cacheGetExc`/`cacheSetExc` are `some msg` when the corresponding Redis
call raises (backend unreachable); `tempfileExc` when the cookie
tempfile handling raises (caught by the outer `except` at line 153);
`headStatus url` is the status of `requests.head url`, `none` meaning
the probe raised (timeout / connection failure); `extractResult` is
`yt_dlp`'s outcome on the watch URL. -/
structure Env where
  cookieData : Option String
  cacheGetExc : Option String
  cacheSetExc : Option String
  tempfileExc : Option String
  cache0 : List (String × String)
  headStatus : String → Option Nat
  extractResult : String → Except String String

/-- Instrumented outcome of one `/stream` request: the response, the
final cache contents, the ordered trace of external calls, and the cache
contents at the instant `ydl.extract_info` is invoked (`none` when
extraction never starts). -/
structure RunResult where
  response : Resp
  cacheFinal : List (String × String)
  trace : List Op
  cacheAtExtract : Option (List (String × String))
deriving DecidableEq

/-- Lines 108-155 of the source: cookie check, tempfile, extraction,
best-effort-less cache write, and the `except` ladder.  `pre` is the
trace accumulated by the cache-lookup/validation phase. -/
def extractPhase (env : Env) (vid : String) (pre : List Op) : RunResult :=
  if (env.cookieData.getD "") = "" then
    ⟨.err 500 "Cookie configuration missing", env.cache0, pre, none⟩
  else
    match env.tempfileExc, env.extractResult (watchUrl vid), env.cacheSetExc with
    | some _, _, _ =>
      ⟨.err 500 "Failed to process video request", env.cache0, pre, none⟩
    | none, .ok audioUrl, none =>
      ⟨.ok audioUrl, setKey env.cache0 (audioKey vid) audioUrl,
        pre ++ [Op.extract (watchUrl vid), Op.cacheSet (audioKey vid) audioUrl],
        some env.cache0⟩
    | none, .ok audioUrl, some m =>
      if strContains m botMarker then
        ⟨.err 403 botResponseMsg, env.cache0,
          pre ++ [Op.extract (watchUrl vid), Op.cacheSet (audioKey vid) audioUrl],
          some env.cache0⟩
      else
        ⟨.err 500 (extractErrMsg m), env.cache0,
          pre ++ [Op.extract (watchUrl vid), Op.cacheSet (audioKey vid) audioUrl],
          some env.cache0⟩
    | none, .error m, _ =>
      if strContains m botMarker then
        ⟨.err 403 botResponseMsg, env.cache0,
          pre ++ [Op.extract (watchUrl vid)], some env.cache0⟩
      else
        ⟨.err 500 (extractErrMsg m), env.cache0,
          pre ++ [Op.extract (watchUrl vid)], some env.cache0⟩

/-- The `/stream` handler `stream_audio` (lines 87-155).  `videoId` is
`data.get('videoId')`; Python's falsy test `if not video_id` rejects
both a missing field and the empty string with a 400.  The cache lookup
at line 96 is outside every `try`, so a raising `cache.get` escapes the
handler.  A truthy cached URL is probed with `requests.head`; only a
status of exactly 200 serves the cached URL, every other status and
every probe exception falls through to extraction.  No `cache.delete`
exists anywhere in the handler. -/
def streamAudio (env : Env) (videoId : Option String) : RunResult :=
  match videoId with
  | none => ⟨.err 400 "Video ID is required", env.cache0, [], none⟩
  | some vid =>
    if vid = "" then ⟨.err 400 "Video ID is required", env.cache0, [], none⟩
    else
      match env.cacheGetExc with
      | some m => ⟨.unhandled m, env.cache0, [Op.cacheGet (audioKey vid)], none⟩
      | none =>
        match getKey env.cache0 (audioKey vid) with
        | some url =>
          if url = "" then
            extractPhase env vid [Op.cacheGet (audioKey vid)]
          else
            match env.headStatus url with
            | some s =>
              if s = 200 then
                ⟨.ok url, env.cache0,
                  [Op.cacheGet (audioKey vid), Op.headProbe url], none⟩
              else
                extractPhase env vid [Op.cacheGet (audioKey vid), Op.headProbe url]
            | none => extractPhase env vid [Op.cacheGet (audioKey vid), Op.headProbe url]
        | none => extractPhase env vid [Op.cacheGet (audioKey vid)]

/-- Abstract surface form of a value read back from the cache by the
list endpoints: either the textual representation of a list of
`{videoId, title}` records, or some other Python expression (the cache
is a shared external store, so its contents are not under the
handler's control). -/
inductive StoredText where
  | listLit (songs : List Song)
  | expr (code : String)
deriving DecidableEq

/-- Result of Python's `eval` on a stored value: the value produced,
and the code executed when the text was not a plain list literal. -/
structure EvalOutcome where
  value : List Song
  executedCode : Option String
deriving DecidableEq

/-- Python `eval` applied to stored text (lines 170, 184, 199, 213): a
list literal evaluates to its list, but any other expression is executed
as code. -/
def pyRun : StoredText → EvalOutcome
  | .listLit l => ⟨l, none⟩
  | .expr c => ⟨[], some c⟩

/-- The source's deserialization step
`x = eval(x) if x else []` applied to a cache read. -/
def deserializeCached : Option StoredText → EvalOutcome
  | none => ⟨[], none⟩
  | some s => pyRun s

/-- Modelled from the spec: a pure structured parse of stored text, as
required by "never deserialize cached values by executing them as code;
always parse as structured data" — it accepts only list literals and
never executes anything. -/
def specStructuredParse : Option StoredText → Option (List Song)
  | none => some []
  | some (.listLit l) => some l
  | some (.expr _) => none

/-- The list update of `like_song` (lines 198-207): append the record
only when the exact `{videoId, title}` pair is not already present. -/
def likeSongUpdate (v t : String) (l : List Song) : List Song :=
  if Song.mk v t ∈ l then l else l ++ [Song.mk v t]

/-- The list update of `add_recently_played` (lines 169-177): append,
then keep the last 10 (`recently_played[-10:]`). -/
def recentlyPlayedUpdate (v t : String) (l : List Song) : List Song :=
  let l2 := l ++ [Song.mk v t]
  l2.drop (l2.length - 10)

/-- Environment for the stale-cache scenario: a cached URL that fails
its probe (status 403), cookies configured, extraction succeeding. -/
def envC2 : Env :=
  ⟨some "ck", none, none, none, [("audio_url:v1", "http://old")],
    fun _ => some 403, fun _ => Except.ok "http://new"⟩

/-- Environment for the malformed-identifier scenario: empty cache,
cookies configured, extraction succeeding for whatever URL it is given. -/
def envC3 : Env :=
  ⟨some "ck", none, none, none, [], fun _ => none, fun _ => Except.ok "http://x"⟩

/-- Environment for the cache-backend-unreachable scenario: `cache.get`
raises, extraction would succeed if reached. -/
def envC4 : Env :=
  ⟨some "ck", some "Connection refused", none, none, [],
    fun _ => none, fun _ => Except.ok "http://x"⟩

/-- Environment for the failing-cache-write scenario: cache miss,
extraction succeeds, `cache.set` raises. -/
def envC5 : Env :=
  ⟨some "ck", none, some "redis write failed", none, [],
    fun _ => none, fun _ => Except.ok "http://new"⟩

/-- Environment where extraction fails with a private-content marker. -/
def envC6a : Env :=
  ⟨some "ck", none, none, none, [],
    fun _ => none, fun _ => Except.error "Private video"⟩

/-- Environment where extraction fails with a copyright-takedown marker. -/
def envC6b : Env :=
  ⟨some "ck", none, none, none, [],
    fun _ => none, fun _ => Except.error "blocked due to a copyright claim"⟩

/-- Environment where extraction fails with an unclassified message. -/
def envC6c : Env :=
  ⟨some "ck", none, none, none, [],
    fun _ => none, fun _ => Except.error "transient network glitch"⟩

/-- Environment with no `YOUTUBE_COOKIES` configured and an empty cache. -/
def envC7 : Env :=
  ⟨none, none, none, none, [], fun _ => none, fun _ => Except.ok "http://x"⟩

/-- Environment with a cached URL whose probe answers 206 (a success-range
status other than 200); cookies are absent so the fallback is observable. -/
def envC8 : Env :=
  ⟨none, none, none, none, [("audio_url:v1", "u")],
    fun _ => some 206, fun _ => Except.ok "http://new"⟩

/-- Environment for the fast path: cached URL probing 200. -/
def envC9 : Env :=
  ⟨some "ck", none, none, none, [("audio_url:v1", "http://old")],
    fun u => if u = "http://old" then some 200 else none,
    fun _ => Except.ok "http://new"⟩

/-- Complete enumeration of the outcomes of the extraction phase: the
cookie-missing 500, the tempfile 500, a successful extraction with
successful write, a successful extraction whose write raised (mapped by
the generic handler), and a failed extraction (mapped by the generic
handler). -/
lemma extractPhase_enum (env : Env) (vid : String) (pre : List Op) :
    extractPhase env vid pre =
      ⟨.err 500 "Cookie configuration missing", env.cache0, pre, none⟩ ∨
    extractPhase env vid pre =
      ⟨.err 500 "Failed to process video request", env.cache0, pre, none⟩ ∨
    (∃ u, extractPhase env vid pre =
      ⟨.ok u, setKey env.cache0 (audioKey vid) u,
        pre ++ [Op.extract (watchUrl vid), Op.cacheSet (audioKey vid) u],
        some env.cache0⟩) ∨
    (∃ u m, extractPhase env vid pre =
      ⟨if strContains m botMarker then .err 403 botResponseMsg
        else .err 500 (extractErrMsg m), env.cache0,
        pre ++ [Op.extract (watchUrl vid), Op.cacheSet (audioKey vid) u],
        some env.cache0⟩) ∨
    (∃ m, extractPhase env vid pre =
      ⟨if strContains m botMarker then .err 403 botResponseMsg
        else .err 500 (extractErrMsg m), env.cache0,
        pre ++ [Op.extract (watchUrl vid)], some env.cache0⟩) := by
  by_cases hck : (env.cookieData.getD "") = ""
  · exact Or.inl (by simp [extractPhase, hck])
  · cases htf : env.tempfileExc with
    | some v => exact Or.inr (Or.inl (by simp [extractPhase, hck, htf]))
    | none =>
      cases hex : env.extractResult (watchUrl vid) with
      | error m =>
        refine Or.inr (Or.inr (Or.inr (Or.inr ⟨m, ?_⟩)))
        by_cases hb : strContains m botMarker <;>
          simp [extractPhase, hck, htf, hex, hb]
      | ok u =>
        cases hset : env.cacheSetExc with
        | none =>
          exact Or.inr (Or.inr (Or.inl
            ⟨u, by simp [extractPhase, hck, htf, hex, hset]⟩))
        | some m =>
          refine Or.inr (Or.inr (Or.inr (Or.inl ⟨u, m, ?_⟩)))
          by_cases hb : strContains m botMarker <;>
            simp [extractPhase, hck, htf, hex, hset, hb]

/-- The extraction phase never performs a cache delete. -/
lemma extractPhase_no_delete (env : Env) (vid : String) (pre : List Op) (k : String)
    (h : Op.cacheDelete k ∉ pre) : Op.cacheDelete k ∉ (extractPhase env vid pre).trace := by
  rcases extractPhase_enum env vid pre with he | he | ⟨u, he⟩ | ⟨u, m, he⟩ | ⟨m, he⟩ <;>
    rw [he] <;> simp [List.mem_append, h]

/-- When the extraction phase reaches the extractor, the cache contents
at that instant are exactly the initial contents: nothing was written or
deleted beforehand. -/
lemma extractPhase_snapshot (env : Env) (vid : String) (pre : List Op) :
    (extractPhase env vid pre).cacheAtExtract = none ∨
    (extractPhase env vid pre).cacheAtExtract = some env.cache0 := by
  rcases extractPhase_enum env vid pre with he | he | ⟨u, he⟩ | ⟨u, m, he⟩ | ⟨m, he⟩ <;>
    rw [he] <;> simp

/-- The extraction phase only ever appends to the trace it is given. -/
lemma extractPhase_trace_ext (env : Env) (vid : String) (pre : List Op) :
    ∃ s, (extractPhase env vid pre).trace = pre ++ s := by
  rcases extractPhase_enum env vid pre with he | he | ⟨u, he⟩ | ⟨u, m, he⟩ | ⟨m, he⟩ <;>
    rw [he]
  · exact ⟨[], by simp⟩
  · exact ⟨[], by simp⟩
  · exact ⟨_, rfl⟩
  · exact ⟨_, rfl⟩
  · exact ⟨_, rfl⟩

/-- The extraction phase can never produce the fast-path result (serving
a URL with an unextended trace and no extraction snapshot). -/
lemma extractPhase_ne_fast (env : Env) (vid : String) (pre : List Op) (url : String) :
    extractPhase env vid pre ≠ ⟨.ok url, env.cache0, pre, none⟩ := by
  rcases extractPhase_enum env vid pre with he | he | ⟨u, he⟩ | ⟨u, m, he⟩ | ⟨m, he⟩ <;>
    rw [he]
  · simp
  · simp
  · simp [RunResult.mk.injEq]
  · split <;> simp [RunResult.mk.injEq]
  · split <;> simp [RunResult.mk.injEq]

/-- C1 (code_bug): the claim says the deserialization step applied to a
cached value is a pure structured parse, never code execution.  The
source instead applies Python `eval` to the value read back (lines 170,
184, 199, 213): on a stored value that is not a plain list literal,
`eval` executes it as code, whereas the structured parse the spec
requires would reject it without executing anything. -/
theorem deserialization_executes_stored_code :
    deserializeCached (some (StoredText.expr "__import__(os).system(payload)")) =
      ⟨[], some "__import__(os).system(payload)"⟩ ∧
    (deserializeCached
        (some (StoredText.expr "__import__(os).system(payload)"))).executedCode ≠ none ∧
    specStructuredParse (some (StoredText.expr "__import__(os).system(payload)")) = none :=
  ⟨rfl, by decide, rfl⟩

/-- C2 counterexample: with a cached URL that fails its probe, the run
reaches extraction while the cache still holds the stale entry (the
snapshot at extraction start still resolves the key), and no delete
operation appears anywhere in the trace — so a cache get immediately
after the failed validation does not return empty, refuting the claim
at this concrete input. -/
theorem stale_entry_kept_cex :
    (streamAudio envC2 (some "v1")).cacheAtExtract =
        some [("audio_url:v1", "http://old")] ∧
    getKey [("audio_url:v1", "http://old")] "audio_url:v1" = some "http://old" ∧
    (streamAudio envC2 (some "v1")).trace =
      [Op.cacheGet "audio_url:v1", Op.headProbe "http://old",
        Op.extract "https://www.youtube.com/watch?v=v1",
        Op.cacheSet "audio_url:v1" "http://new"] := by decide

/-- C2 (corrected): the handler contains no cache delete at all; on a
failed validation it proceeds directly to extraction with the stale
entry still in place, and the cache contents at the moment extraction
begins are exactly the initial contents (the entry is only ever replaced
by the set following a successful extraction). -/
theorem no_delete_stale_kept (env : Env) (vidOpt : Option String) :
    (∀ k, Op.cacheDelete k ∉ (streamAudio env vidOpt).trace) ∧
    (∀ c, (streamAudio env vidOpt).cacheAtExtract = some c → c = env.cache0) := by
  have hphase : ∀ vid pre, (∀ k, Op.cacheDelete k ∉ pre) →
      (∀ k, Op.cacheDelete k ∉ (extractPhase env vid pre).trace) ∧
      (∀ c, (extractPhase env vid pre).cacheAtExtract = some c → c = env.cache0) := by
    intro vid pre hpre
    refine ⟨fun k => extractPhase_no_delete env vid pre k (hpre k), fun c hc => ?_⟩
    rcases extractPhase_snapshot env vid pre with h | h <;> rw [h] at hc
    · exact absurd hc (by simp)
    · exact (Option.some_inj.mp hc).symm
  cases vidOpt with
  | none => simp [streamAudio]
  | some vid =>
    by_cases hvid : vid = ""
    · simp [streamAudio, hvid]
    · cases hget : env.cacheGetExc with
      | some m => simp [streamAudio, hvid, hget]
      | none =>
        cases hhit : getKey env.cache0 (audioKey vid) with
        | none =>
          have := hphase vid [Op.cacheGet (audioKey vid)] (by simp)
          simpa [streamAudio, hvid, hget, hhit] using this
        | some url =>
          by_cases hurl : url = ""
          · have := hphase vid [Op.cacheGet (audioKey vid)] (by simp)
            simpa [streamAudio, hvid, hget, hhit, hurl] using this
          · cases hh : env.headStatus url with
            | none =>
              have := hphase vid [Op.cacheGet (audioKey vid), Op.headProbe url] (by simp)
              simpa [streamAudio, hvid, hget, hhit, hurl, hh] using this
            | some st =>
              by_cases h200 : st = 200
              · simp [streamAudio, hvid, hget, hhit, hurl, hh, h200]
              · have := hphase vid [Op.cacheGet (audioKey vid), Op.headProbe url] (by simp)
                simpa [streamAudio, hvid, hget, hhit, hurl, hh, h200] using this

/-- C2 witness: the corrected statement instantiated on the concrete
stale-entry run. -/
theorem no_delete_stale_kept_witness :
    Op.cacheDelete "audio_url:v1" ∉ (streamAudio envC2 (some "v1")).trace ∧
    ([("audio_url:v1", "http://old")] : List (String × String)) = envC2.cache0 :=
  ⟨(no_delete_stale_kept envC2 (some "v1")).1 "audio_url:v1",
   (no_delete_stale_kept envC2 (some "v1")).2 [("audio_url:v1", "http://old")] (by decide)⟩

/-- C3 counterexample: the identifier "a/b" contains a slash, which is
outside the claimed allow-list, yet the run performs the cache lookup,
the extraction call, and even succeeds — there is no InvalidInput
rejection and no call-free failure. -/
theorem slash_id_reaches_network_cex :
    (Char.ofNat 47) ∈ "a/b".data ∧
    (streamAudio envC3 (some "a/b")).response = .ok "http://x" ∧
    Op.cacheGet "audio_url:a/b" ∈ (streamAudio envC3 (some "a/b")).trace ∧
    Op.extract "https://www.youtube.com/watch?v=a/b" ∈
      (streamAudio envC3 (some "a/b")).trace := by decide

/-- C3 (corrected): the only input validation is Python's falsy test —
a missing or empty videoId is rejected with a 400 before any call; every
non-empty identifier, whatever characters it contains, first reaches the
cache with the identifier interpolated directly into the key (and later
into the watch URL), so no allow-list rejection exists. -/
theorem nonempty_id_reaches_cache (env : Env) (vid : String) (hvid : vid ≠ "") :
    (streamAudio env (some vid)).trace.head? = some (Op.cacheGet (audioKey vid)) := by
  cases hget : env.cacheGetExc with
  | some m => simp [streamAudio, hvid, hget]
  | none =>
    cases hhit : getKey env.cache0 (audioKey vid) with
    | none =>
      obtain ⟨s, hs⟩ := extractPhase_trace_ext env vid [Op.cacheGet (audioKey vid)]
      simp [streamAudio, hvid, hget, hhit, hs]
    | some url =>
      by_cases hurl : url = ""
      · obtain ⟨s, hs⟩ := extractPhase_trace_ext env vid [Op.cacheGet (audioKey vid)]
        simp [streamAudio, hvid, hget, hhit, hurl, hs]
      · cases hh : env.headStatus url with
        | none =>
          obtain ⟨s, hs⟩ :=
            extractPhase_trace_ext env vid [Op.cacheGet (audioKey vid), Op.headProbe url]
          simp [streamAudio, hvid, hget, hhit, hurl, hh, hs]
        | some st =>
          by_cases h200 : st = 200
          · simp [streamAudio, hvid, hget, hhit, hurl, hh, h200]
          · obtain ⟨s, hs⟩ :=
              extractPhase_trace_ext env vid [Op.cacheGet (audioKey vid), Op.headProbe url]
            simp [streamAudio, hvid, hget, hhit, hurl, hh, h200, hs]

/-- C3 witness: the corrected statement instantiated on the
slash-containing identifier. -/
theorem nonempty_id_reaches_cache_witness :
    (streamAudio envC3 (some "a/b")).trace.head? =
      some (Op.cacheGet (audioKey "a/b")) :=
  nonempty_id_reaches_cache envC3 "a/b" (by decide)

/-- C4 counterexample: with the cache backend unreachable (the lookup
raises) and an extractor that would succeed, the request does not
proceed to extraction and does not return the extracted URL: the
exception escapes the handler (HTTP 500), so a cache error is exactly
what reaches the caller. -/
theorem cache_exc_crashes_cex :
    (streamAudio envC4 (some "v1")).response = .unhandled "Connection refused" ∧
    (streamAudio envC4 (some "v1")).response ≠ .ok "http://x" ∧
    Op.extract "https://www.youtube.com/watch?v=v1" ∉
      (streamAudio envC4 (some "v1")).trace ∧
    (streamAudio envC4 (some "v1")).response.statusCode = 500 := by decide

/-- C4 (corrected): the cache lookup at line 96 sits outside every
try-block, so when it raises, the exception propagates out of the
handler unchanged: the trace stops at the single get and no extraction
is attempted.  Only a lookup that returns nothing (a miss) falls through
to extraction. -/
theorem cache_exc_unhandled (env : Env) (vid m : String) (hvid : vid ≠ "")
    (h : env.cacheGetExc = some m) :
    streamAudio env (some vid) =
      ⟨.unhandled m, env.cache0, [Op.cacheGet (audioKey vid)], none⟩ := by
  simp [streamAudio, hvid, h]

/-- C4 witness: the corrected statement instantiated on the concrete
unreachable-cache run. -/
theorem cache_exc_unhandled_witness :
    streamAudio envC4 (some "v1") =
      ⟨.unhandled "Connection refused", envC4.cache0,
        [Op.cacheGet (audioKey "v1")], none⟩ :=
  cache_exc_unhandled envC4 "v1" "Connection refused" (by decide) rfl

/-- C5 counterexample: extraction succeeds with a fresh URL but the
subsequent cache write raises; the handler returns a 500 whose body
wraps the cache error as an extraction failure, and the freshly resolved
URL is not returned — the write's failure becomes the request's
outcome. -/
theorem set_failure_fails_request_cex :
    envC5.extractResult "https://www.youtube.com/watch?v=v1" =
      Except.ok "http://new" ∧
    (streamAudio envC5 (some "v1")).response =
      .err 500 "Failed to extract video info: redis write failed" ∧
    (streamAudio envC5 (some "v1")).response ≠ .ok "http://new" :=
  ⟨rfl, by decide, by decide⟩

/-- C5 (corrected): `cache.set` is executed inside the same try-block as
the extraction, so when it raises after a successful extraction the
generic except-clause takes over: the response is the 500
"Failed to extract video info" wrapping of the cache error (or the 403
bot response, should the cache error message contain the bot marker),
never the freshly resolved URL. -/
theorem set_failure_wrapped (env : Env) (vid u m : String) (hvid : vid ≠ "")
    (hget : env.cacheGetExc = none)
    (hmiss : getKey env.cache0 (audioKey vid) = none)
    (hck : ¬((env.cookieData.getD "") = "")) (htf : env.tempfileExc = none)
    (hex : env.extractResult (watchUrl vid) = .ok u)
    (hset : env.cacheSetExc = some m) (hbot : strContains m botMarker = false) :
    (streamAudio env (some vid)).response = .err 500 (extractErrMsg m) := by
  simp [streamAudio, extractPhase, hvid, hget, hmiss, hck, htf, hex, hset, hbot]

/-- C5 witness: the corrected statement instantiated on the concrete
failing-write run. -/
theorem set_failure_wrapped_witness :
    (streamAudio envC5 (some "v1")).response =
      .err 500 (extractErrMsg "redis write failed") :=
  set_failure_wrapped envC5 "v1" "http://new" "redis write failed"
    (by decide) rfl rfl (by decide) rfl rfl rfl (by decide)

/-- C6 counterexample: a private-content failure and a copyright failure
are both answered exactly like an unclassified failure — a 500 wrapping
the raw message — and neither yields a distinct 403 outcome, so the
claimed four-way mapping with distinct HTTP-visible outcomes does not
exist in the code. -/
theorem private_copyright_generic_cex :
    (streamAudio envC6a (some "v1")).response =
      .err 500 "Failed to extract video info: Private video" ∧
    (streamAudio envC6b (some "v1")).response =
      .err 500 "Failed to extract video info: blocked due to a copyright claim" ∧
    (streamAudio envC6c (some "v1")).response =
      .err 500 "Failed to extract video info: transient network glitch" ∧
    (streamAudio envC6a (some "v1")).response.statusCode =
      (streamAudio envC6c (some "v1")).response.statusCode ∧
    (streamAudio envC6a (some "v1")).response.statusCode ≠ 403 := by decide

/-- C6 (corrected): the except-clause inspects the failure message for
the single bot-check marker only: a message containing it yields the 403
bot response, and every other message — private, copyright, or anything
else — yields the one generic 500 wrapping of the message. -/
theorem extract_error_mapping (env : Env) (vid m : String) (hvid : vid ≠ "")
    (hget : env.cacheGetExc = none)
    (hmiss : getKey env.cache0 (audioKey vid) = none)
    (hck : ¬((env.cookieData.getD "") = "")) (htf : env.tempfileExc = none)
    (hex : env.extractResult (watchUrl vid) = .error m) :
    (streamAudio env (some vid)).response =
      if strContains m botMarker then .err 403 botResponseMsg
      else .err 500 (extractErrMsg m) := by
  by_cases hb : strContains m botMarker <;>
    simp [streamAudio, extractPhase, hvid, hget, hmiss, hck, htf, hex, hb]

/-- C6 witness: the corrected mapping instantiated on the concrete
private-content failure. -/
theorem extract_error_mapping_witness :
    (streamAudio envC6a (some "v1")).response =
      if strContains "Private video" botMarker then .err 403 botResponseMsg
      else .err 500 (extractErrMsg "Private video") :=
  extract_error_mapping envC6a "v1" "Private video"
    (by decide) rfl rfl (by decide) rfl rfl

/-- C7 counterexample: with no cookie material configured the handler
answers 500 "Cookie configuration missing" — the same HTTP status as the
generic extraction failures and not the 403 of the code's bot/auth
outcome — so the failure does not surface as a distinct AuthRequired
classification. -/
theorem missing_cookies_generic_cex :
    (streamAudio envC7 (some "v1")).response =
      .err 500 "Cookie configuration missing" ∧
    (streamAudio envC7 (some "v1")).response.statusCode = 500 ∧
    (streamAudio envC7 (some "v1")).response.statusCode =
      (Resp.err 500 (extractErrMsg "transient network glitch")).statusCode ∧
    (streamAudio envC7 (some "v1")).response ≠ .err 403 botResponseMsg := by decide

/-- C7 (corrected): absent cookie configuration is answered with a 500
carrying the distinct body "Cookie configuration missing", before any
extraction is attempted; it shares the 500 status of the generic
failures rather than surfacing as the 403 auth outcome. -/
theorem missing_cookies_500 (env : Env) (vid : String) (hvid : vid ≠ "")
    (hget : env.cacheGetExc = none)
    (hmiss : getKey env.cache0 (audioKey vid) = none)
    (hck : (env.cookieData.getD "") = "") :
    streamAudio env (some vid) =
      ⟨.err 500 "Cookie configuration missing", env.cache0,
        [Op.cacheGet (audioKey vid)], none⟩ := by
  simp [streamAudio, extractPhase, hvid, hget, hmiss, hck]

/-- C7 witness: the corrected statement instantiated on the concrete
cookie-less run. -/
theorem missing_cookies_500_witness :
    streamAudio envC7 (some "v1") =
      ⟨.err 500 "Cookie configuration missing", envC7.cache0,
        [Op.cacheGet (audioKey "v1")], none⟩ :=
  missing_cookies_500 envC7 "v1" (by decide) rfl rfl rfl

/-- C8 counterexample: a cached URL whose probe answers 206 — squarely in
the claimed 200-299 success range — is not treated as valid: the run
falls through past the probe instead of serving the cached URL. -/
theorem status_206_not_served_cex :
    envC8.headStatus "u" = some 206 ∧ (200 ≤ 206 ∧ 206 ≤ 299) ∧
    getKey envC8.cache0 "audio_url:v1" = some "u" ∧
    (streamAudio envC8 (some "v1")).response ≠ .ok "u" ∧
    (streamAudio envC8 (some "v1")).response =
      .err 500 "Cookie configuration missing" := by decide

/-- C8 (corrected): the probe (a `requests.head` call issued with no
timeout argument) leads to the cached URL being served exactly when its
status is 200: any other status — including other 2xx statuses — and any
probe exception falls through to re-resolution. -/
theorem fast_path_iff_200 (env : Env) (vid url : String) (hvid : vid ≠ "")
    (hget : env.cacheGetExc = none)
    (hhit : getKey env.cache0 (audioKey vid) = some url) (hurl : url ≠ "") :
    streamAudio env (some vid) =
        ⟨.ok url, env.cache0, [Op.cacheGet (audioKey vid), Op.headProbe url], none⟩ ↔
      env.headStatus url = some 200 := by
  constructor
  · intro h
    cases hh : env.headStatus url with
    | none =>
      have hs : streamAudio env (some vid) =
          extractPhase env vid [Op.cacheGet (audioKey vid), Op.headProbe url] := by
        simp [streamAudio, hvid, hget, hhit, hurl, hh]
      rw [hs] at h
      exact absurd h (extractPhase_ne_fast env vid _ url)
    | some st =>
      by_cases h200 : st = 200
      · rw [h200]
      · have hs : streamAudio env (some vid) =
            extractPhase env vid [Op.cacheGet (audioKey vid), Op.headProbe url] := by
          simp [streamAudio, hvid, hget, hhit, hurl, hh, h200]
        rw [hs] at h
        exact absurd h (extractPhase_ne_fast env vid _ url)
  · intro h
    simp [streamAudio, hvid, hget, hhit, hurl, h]

/-- C8 witness: the corrected criterion instantiated on the concrete
206-probe run. -/
theorem fast_path_iff_200_witness :
    (streamAudio envC8 (some "v1") =
        ⟨.ok "u", envC8.cache0, [Op.cacheGet (audioKey "v1"), Op.headProbe "u"], none⟩ ↔
      envC8.headStatus "u" = some 200) :=
  fast_path_iff_200 envC8 "v1" "u" (by decide) rfl (by decide) (by decide)

/-- C9 (confirmed): when the cached URL is found and its probe answers
200, the handler responds with the cached URL, the cache contents are
left exactly as they were (no set, no delete), and the trace consists of
the single get followed by the single probe — in particular the
extractor is never invoked. -/
theorem valid_hit_fast_path (env : Env) (vid url : String) (hvid : vid ≠ "")
    (hget : env.cacheGetExc = none)
    (hhit : getKey env.cache0 (audioKey vid) = some url) (hurl : url ≠ "")
    (hvalid : env.headStatus url = some 200) :
    streamAudio env (some vid) =
      ⟨.ok url, env.cache0, [Op.cacheGet (audioKey vid), Op.headProbe url], none⟩ := by
  simp [streamAudio, hvid, hget, hhit, hurl, hvalid]

/-- C9 witness: the fast path instantiated on the concrete valid-hit
run. -/
theorem valid_hit_fast_path_witness :
    streamAudio envC9 (some "v1") =
      ⟨.ok "http://old", envC9.cache0,
        [Op.cacheGet (audioKey "v1"), Op.headProbe "http://old"], none⟩ :=
  valid_hit_fast_path envC9 "v1" "http://old" (by decide) rfl (by decide)
    (by decide) (by decide)

/-- C10 (confirmed): the liked-songs append deduplicates on the exact
record: a pair already present leaves the list unchanged, a pair not
present is appended, and two likes sharing a videoId but differing in
title both persist, so one identifier can occur in several entries. -/
theorem like_song_exact_record_dedup :
    ∀ (l : List Song) (v t t' : String),
      (Song.mk v t ∈ l → likeSongUpdate v t l = l) ∧
      (Song.mk v t ∉ l → likeSongUpdate v t l = l ++ [Song.mk v t]) ∧
      (t ≠ t' → likeSongUpdate v t' [Song.mk v t] = [Song.mk v t, Song.mk v t']) := by
  intro l v t t'
  refine ⟨fun h => ?_, fun h => ?_, fun h => ?_⟩
  · simp [likeSongUpdate, h]
  · simp [likeSongUpdate, h]
  · simp [likeSongUpdate, Song.mk.injEq]
    exact fun hh => h hh.symm

/-- C10 witness: re-liking an existing pair changes nothing, while a
same-id different-title pair is appended alongside the old entry. -/
theorem like_song_exact_record_dedup_witness :
    likeSongUpdate "a" "x" [Song.mk "a" "x"] = [Song.mk "a" "x"] ∧
    likeSongUpdate "b" "x" [Song.mk "a" "x"] = [Song.mk "a" "x", Song.mk "b" "x"] ∧
    likeSongUpdate "a" "y" [Song.mk "a" "x"] = [Song.mk "a" "x", Song.mk "a" "y"] :=
  ⟨(like_song_exact_record_dedup [Song.mk "a" "x"] "a" "x" "y").1 (by decide),
   (like_song_exact_record_dedup [Song.mk "a" "x"] "b" "x" "y").2.1 (by decide),
   (like_song_exact_record_dedup [Song.mk "a" "x"] "a" "x" "y").2.2 (by decide)⟩

end FlaskServer
